import Mathlib

/-!
Shallow embedding of the restart/retry and dependency-resolution logic of the
`davidwaroquiers/atomate2` repository (abinit job makers, mrgddb merging,
error serialization, GW input set generation, DFPT/G0W0 flow composition and
the VASP multi-MD step splitting), with theorems settling the spec claims.

External collaborators (pymatgen `Structure`, abipy `AbinitInput`, the event
parser, the filesystem) are modelled as abstract data carried in explicit
state records; fallible Python code is modelled with `Except`/`Option`.
-/

/-! ## `atomate2/vasp/flows/md.py` : `MultiMDMaker._split_md` -/

/-- The imperative loop `for ii in range(remaining): nsteps_runs[ii] += 1`
of `MultiMDMaker._split_md`, acting on the list `nsteps_runs`. -/
def bumpLoop (base : List Nat) (remaining : Nat) : List Nat :=
  (List.range remaining).foldl (fun l ii => l.set ii (l.getD ii 0 + 1)) base

/-- Step counts of `MultiMDMaker._split_md`:
`nsteps_run = nsteps // n_runs`, `remaining = nsteps - n_runs * nsteps_run`,
`nsteps_runs = [nsteps_run] * n_runs` with the first `remaining` entries
incremented by the loop. -/
def splitStepCounts (nsteps n_runs : Nat) : List Nat :=
  let nsteps_run := nsteps / n_runs
  let remaining := nsteps - n_runs * nsteps_run
  bumpLoop (List.replicate n_runs nsteps_run) remaining

/-- The temperature ramp loop of `MultiMDMaker._split_md`: for each run the
start temperature is the previous run's end temperature and
`prevrun_end_temp += delta_temp / nsteps * nsteps_runs[irun]`.
Python floats are modelled as rationals. -/
def tempRuns (delta : ℚ) (nsteps : Nat) : ℚ → List Nat → List (ℚ × ℚ)
  | _, [] => []
  | prev, c :: cs =>
    let e := prev + delta / (nsteps : ℚ) * (c : ℚ)
    (prev, e) :: tempRuns delta nsteps e cs

/-- `MultiMDMaker._split_md(nsteps, n_runs, start_temp, end_temp)`:
returns `list(zip(nsteps_runs, start_temp_runs, end_temp_runs))`. -/
def splitMd (nsteps n_runs : Nat) (start_temp : ℚ) (end_temp : Option ℚ) :
    List (Nat × ℚ × ℚ) :=
  let et := end_temp.getD start_temp
  let counts := splitStepCounts nsteps n_runs
  let delta := et - start_temp
  (counts.zip (tempRuns delta nsteps start_temp counts)).map
    (fun p => (p.1, p.2.1, p.2.2))

theorem bumpLoop_succ (base : List Nat) (r : Nat) :
    bumpLoop base (r + 1) =
      (bumpLoop base r).set r ((bumpLoop base r).getD r 0 + 1) := by
  simp [bumpLoop, List.range_succ]

theorem bumpLoop_length (base : List Nat) (r : Nat) :
    (bumpLoop base r).length = base.length := by
  induction r with
  | zero => simp [bumpLoop]
  | succ n ih => rw [bumpLoop_succ]; simp [ih]

theorem bumpLoop_getElem? (base : List Nat) (r : Nat) :
    ∀ j, (bumpLoop base r)[j]? =
      if j < r then (base[j]?).map (fun x => x + 1) else base[j]? := by
  induction r with
  | zero => intro j; simp [bumpLoop]
  | succ n ih =>
    intro j
    rw [bumpLoop_succ]
    rcases eq_or_ne j n with hj | hj
    · subst hj
      rw [List.getElem?_set_self']
      cases hcase : base[j]? with
      | none =>
        have hl : (bumpLoop base j)[j]? = none := by
          rw [ih j]; simp [hcase]
        simp [hl, hcase]
      | some x =>
        have hl : (bumpLoop base j)[j]? = some x := by
          rw [ih j]; simp [hcase]
        have hgd : (bumpLoop base j).getD j 0 = x := by
          rw [List.getD_eq_getElem?_getD, hl]; rfl
        simp [hl, hgd, hcase, Nat.lt_succ_self, Function.const]
    · rw [List.getElem?_set_ne (Ne.symm hj)]
      rw [ih j]
      rcases Nat.lt_or_ge j n with h1 | h1
      · simp [h1, Nat.lt_succ_of_lt h1]
      · have h2 : ¬ j < n := by omega
        have h3 : ¬ j < n + 1 := by omega
        simp [h2, h3]

theorem splitStepCounts_length (nsteps n_runs : Nat) :
    (splitStepCounts nsteps n_runs).length = n_runs := by
  simp [splitStepCounts, bumpLoop_length]

theorem splitStepCounts_remaining (nsteps n_runs : Nat) :
    nsteps - n_runs * (nsteps / n_runs) = nsteps % n_runs := by
  have := Nat.div_add_mod nsteps n_runs
  omega

theorem splitStepCounts_getElem? (nsteps n_runs : Nat) (j : Nat) (hj : j < n_runs) :
    (splitStepCounts nsteps n_runs)[j]? =
      some (if j < nsteps % n_runs then nsteps / n_runs + 1 else nsteps / n_runs) := by
  unfold splitStepCounts
  simp only [splitStepCounts_remaining]
  rw [bumpLoop_getElem?]
  rcases Nat.lt_or_ge j (nsteps % n_runs) with hc | hc
  · simp [hc, List.getElem?_replicate, hj]
  · have hnc : ¬ j < nsteps % n_runs := by omega
    simp [hnc, List.getElem?_replicate, hj]

theorem splitStepCounts_getD (nsteps n_runs : Nat) (j : Nat) (hj : j < n_runs) :
    (splitStepCounts nsteps n_runs).getD j 0 =
      if j < nsteps % n_runs then nsteps / n_runs + 1 else nsteps / n_runs := by
  rw [List.getD_eq_getElem?_getD, splitStepCounts_getElem? nsteps n_runs j hj]
  rfl

theorem sum_ite_range (q r : Nat) :
    ∀ n, ((List.range n).map (fun i => if i < r then q + 1 else q)).sum =
      n * q + min r n := by
  intro n
  induction n with
  | zero => simp
  | succ m ih =>
    rw [List.range_succ, List.map_append, List.sum_append]
    rcases Nat.lt_or_ge m r with hm | hm
    · have h1 : min r m = m := by omega
      have h2 : min r (m + 1) = m + 1 := by omega
      simp [ih, hm, h1, h2, Nat.succ_mul]; omega
    · have h1 : min r m = r := by omega
      have h2 : min r (m + 1) = r := by omega
      have h3 : ¬ m < r := by omega
      simp [ih, h3, h1, h2, Nat.succ_mul]; omega

theorem splitStepCounts_eq_map (nsteps n_runs : Nat) :
    splitStepCounts nsteps n_runs =
      (List.range n_runs).map
        (fun i => if i < nsteps % n_runs then nsteps / n_runs + 1
                  else nsteps / n_runs) := by
  apply List.ext_getElem
  · simp [splitStepCounts_length]
  · intro j h1 h2
    have hj : j < n_runs := by
      rw [splitStepCounts_length] at h1; exact h1
    have h3 := splitStepCounts_getElem? nsteps n_runs j hj
    rw [List.getElem?_eq_getElem h1] at h3
    have h4 := List.getElem_map
      (fun i => if i < nsteps % n_runs then nsteps / n_runs + 1 else nsteps / n_runs)
      (l := List.range n_runs) (h := h2)
    rw [h4, List.getElem_range]
    exact Option.some_injective _ h3

theorem splitStepCounts_sum (nsteps n_runs : Nat) (h : 1 ≤ n_runs) :
    (splitStepCounts nsteps n_runs).sum = nsteps := by
  rw [splitStepCounts_eq_map nsteps n_runs, sum_ite_range]
  have hmod : nsteps % n_runs < n_runs := Nat.mod_lt _ (by omega)
  have hmin : min (nsteps % n_runs) n_runs = nsteps % n_runs := by omega
  rw [hmin]
  exact Nat.div_add_mod nsteps n_runs

theorem tempRuns_length (delta : ℚ) (nsteps : Nat) :
    ∀ (cs : List Nat) (prev : ℚ), (tempRuns delta nsteps prev cs).length = cs.length := by
  intro cs
  induction cs with
  | nil => intro prev; simp [tempRuns]
  | cons c cs ih => intro prev; simp [tempRuns, ih]

theorem splitMd_counts (nsteps n_runs : Nat) (st : ℚ) (et : Option ℚ) :
    (splitMd nsteps n_runs st et).map (fun t => t.1) =
      splitStepCounts nsteps n_runs := by
  unfold splitMd
  rw [List.map_map]
  have hz : ((splitStepCounts nsteps n_runs).zip
      (tempRuns ((et.getD st) - st) nsteps st (splitStepCounts nsteps n_runs))).map
        Prod.fst = splitStepCounts nsteps n_runs := by
    apply List.map_fst_zip
    rw [tempRuns_length]
  simpa using hz

/-- C10: `MultiMDMaker._split_md` returns exactly `n_runs` triples, the step
counts sum to `nsteps`, each step count is `nsteps / n_runs` or
`nsteps / n_runs + 1`, and exactly the first `nsteps % n_runs` runs receive
the larger count. -/
theorem C10_split_md (nsteps n_runs : Nat) (st : ℚ) (et : Option ℚ)
    (h1 : 1 ≤ nsteps) (h2 : 1 ≤ n_runs) :
    (splitMd nsteps n_runs st et).length = n_runs ∧
    ((splitMd nsteps n_runs st et).map (fun t => t.1)).sum = nsteps ∧
    (∀ j, j < n_runs →
      ((splitMd nsteps n_runs st et).map (fun t => t.1)).getD j 0 =
        if j < nsteps % n_runs then nsteps / n_runs + 1 else nsteps / n_runs) := by
  refine ⟨?_, ?_, ?_⟩
  · unfold splitMd
    rw [List.length_map, List.length_zip, tempRuns_length,
      splitStepCounts_length, Nat.min_self]
  · rw [splitMd_counts, splitStepCounts_sum nsteps n_runs h2]
  · intro j hj
    rw [splitMd_counts]
    exact splitStepCounts_getD nsteps n_runs j hj

/-- Witness for `C10_split_md` at `nsteps = 7`, `n_runs = 3`. -/
theorem C10_split_md_witness :
    (splitMd 7 3 0 none).length = 3 ∧
    ((splitMd 7 3 0 none).map (fun t => t.1)).sum = 7 ∧
    ((splitMd 7 3 0 none).map (fun t => t.1)).getD 0 0 =
      (if 0 < 7 % 3 then 7 / 3 + 1 else 7 / 3) ∧
    ((splitMd 7 3 0 none).map (fun t => t.1)).getD 2 0 =
      (if 2 < 7 % 3 then 7 / 3 + 1 else 7 / 3) :=
  ⟨(C10_split_md 7 3 0 none (by decide) (by decide)).1,
   (C10_split_md 7 3 0 none (by decide) (by decide)).2.1,
   (C10_split_md 7 3 0 none (by decide) (by decide)).2.2 0 (by decide),
   (C10_split_md 7 3 0 none (by decide) (by decide)).2.2 2 (by decide)⟩

/-! ## Shared data model for the abinit makers -/

/-- pymatgen `Structure` (external library): modelled as an abstract value. -/
structure PmgStructure where
  data : String
  deriving DecidableEq, Repr

/-- abipy `AbinitInput` (external library): modelled with the pieces the
embedded code reads, the run-level tags and the structure it holds. -/
structure AbinitInputV where
  runlevel : List String
  struct : PmgStructure
  deriving DecidableEq, Repr

/-- Modelled from the spec: `Status` of `atomate2.abinit.schemas.core` is not
under `src/`; the response logic only compares a task state against
`Status.SUCCESS`, so the state is modelled as success or failure. -/
inductive Status where
  | success
  | failed
  deriving DecidableEq, Repr

/-- Modelled from the spec: `JobHistory` of `atomate2.abinit.utils.history` is
not under `src/`. The bounded-retry state machine of the spec reads
`history.run_number`, the number of runs started so far: `log_start`
increments it, `log_restart` records one automatic restart, and a fresh
history has no runs. -/
structure JobHistory where
  runNumber : Nat
  numRestarts : Nat
  deriving DecidableEq, Repr

def JobHistory.fresh : JobHistory := ⟨0, 0⟩

def JobHistory.logStart (h : JobHistory) : JobHistory :=
  ⟨h.runNumber + 1, h.numRestarts⟩

def JobHistory.logRestart (h : JobHistory) : JobHistory :=
  ⟨h.runNumber, h.numRestarts + 1⟩

/-- Modelled from the spec: the `Atomate2Settings` loaded by `setup_job`; the
response logic reads `ABINIT_MAX_RESTARTS`, whose default is 5. -/
structure AbinitSettings where
  maxRestarts : Nat
  deriving DecidableEq, Repr

def AbinitSettings.default : AbinitSettings := ⟨5⟩

/-- `JobSetupVars` namedtuple of `atomate2/abinit/jobs/base.py`. -/
structure JobSetupVars where
  startTime : Nat
  history : JobHistory
  workdir : String
  settings : AbinitSettings
  wallTime : Option Nat
  deriving DecidableEq, Repr

def setupJobErrMsg : String :=
  "At least one of structure, prev_outputs or restart_from should be defined."

/-- `setup_job` of `atomate2/abinit/jobs/base.py`. The wall-clock start time,
working directory and loaded settings are environment inputs. -/
def setup_job (struct : Option PmgStructure) (prev_outputs : Option (List String))
    (restart_from : Option String) (history : Option JobHistory)
    (wall_time : Option Nat) (t0 : Nat) (wd : String) (cfg : AbinitSettings) :
    Except String JobSetupVars :=
  if struct = none ∧ prev_outputs = none ∧ restart_from = none then
    Except.error setupJobErrMsg
  else
    let h :=
      match history with
      | none => JobHistory.fresh
      | some h0 => if restart_from ≠ none then h0.logRestart else h0
    let h := h.logStart
    Except.ok { startTime := t0, history := h, workdir := wd, settings := cfg,
                wallTime := wall_time }

/-- C9: `setup_job` raises iff `structure`, `prev_outputs` and `restart_from`
are all None; otherwise it returns setup variables whose history is freshly
created when `history` is None, and a restart is logged exactly when an
existing history and a non-None `restart_from` are both provided. -/
theorem C9_setup_job (s : Option PmgStructure) (p : Option (List String))
    (r : Option String) (hist : Option JobHistory) (w : Option Nat)
    (t0 : Nat) (wd : String) (cfg : AbinitSettings) :
    ((∃ e, setup_job s p r hist w t0 wd cfg = Except.error e) ↔
      (s = none ∧ p = none ∧ r = none)) ∧
    (∀ v, setup_job s p r hist w t0 wd cfg = Except.ok v →
      ((hist = none → v.history = JobHistory.fresh.logStart) ∧
       (∀ h0, hist = some h0 → r ≠ none → v.history = h0.logRestart.logStart) ∧
       (∀ h0, hist = some h0 → r = none → v.history = h0.logStart))) := by
  by_cases hc : s = none ∧ p = none ∧ r = none
  · constructor
    · simp [setup_job, hc]
    · intro v hv
      simp [setup_job, hc] at hv
  · constructor
    · simp only [setup_job, hc, if_false]
      constructor
      · rintro ⟨e, he⟩; cases he
      · intro h; exact h.elim
    · intro v hv
      simp only [setup_job, hc, if_false] at hv
      refine ⟨?_, ?_, ?_⟩
      · intro hnone
        subst hnone
        simp only [Except.ok.injEq] at hv
        rw [← hv]
      · intro h0 hsome hr
        subst hsome
        simp only [Except.ok.injEq] at hv
        rw [← hv]
        simp [hr]
      · intro h0 hsome hr
        subst hsome
        simp only [Except.ok.injEq] at hv
        rw [← hv]
        simp [hr]

/-- Witness for `C9_setup_job`: concrete run with a structure provided and a
restart from an existing history. -/
theorem C9_setup_job_witness :
    ({ startTime := 0, history := ⟨3, 2⟩, workdir := "wd", settings := ⟨5⟩,
       wallTime := none } : JobSetupVars).history =
      JobHistory.logStart (JobHistory.logRestart ⟨2, 1⟩) :=
  ((C9_setup_job (some ⟨"Si"⟩) none (some "prev") (some ⟨2, 1⟩) none 0 "wd" ⟨5⟩).2
    { startTime := 0, history := ⟨3, 2⟩, workdir := "wd", settings := ⟨5⟩,
      wallTime := none } rfl).2.1 ⟨2, 1⟩ rfl (by simp)

/-! ## `BaseAbinitMaker.get_response_args` and the restart chain -/

/-- Event objects produced by the external abipy parser; `as_dict` and
`MontyDecoder.process_decoded` round-trip them faithfully. -/
structure AbiEvent where
  name : String
  deriving DecidableEq, Repr

/-- `UnconvergedError` of `atomate2/abinit/utils/common.py`, as an object:
the maker passed as `job` has no report, so the diagnostic fields keep the
constructor arguments. -/
structure UnconvergedErrorV where
  job : Option String
  msg : Option String
  num_errors : Option Int
  num_warnings : Option Int
  errors : Option (List AbiEvent)
  warnings : Option (List AbiEvent)
  abinit_input : Option AbinitInputV
  restart_info : Option String
  history : Option JobHistory
  deriving DecidableEq, Repr

/-- Modelled from the spec: `AbinitTaskDocument` (schemas/core.py is not under
`src/`); the response logic reads its state, directory name, structure and
abinit input. -/
structure AbinitTaskDocument where
  state : Status
  dir_name : String
  struct : PmgStructure
  abinit_input : AbinitInputV
  deriving DecidableEq, Repr

/-- The replacement job built by `self.make(...)` inside
`BaseAbinitMaker.get_response_args`: calling the `@job`-decorated `make` only
records its arguments. -/
structure AbinitRestartJob where
  struct : Option PmgStructure
  restart_from : Option String
  prev_outputs : Option (List String)
  history : Option JobHistory
  deriving DecidableEq, Repr

/-- `ResponseArgs` namedtuple of `atomate2/abinit/jobs/base.py`. -/
structure ResponseArgs where
  detour : Option AbinitRestartJob
  addition : Option AbinitRestartJob
  replace : Option AbinitRestartJob
  stop_children : Bool
  stop_jobflow : Bool
  stored_data : Option UnconvergedErrorV
  deriving DecidableEq, Repr

def unconvergedAfterMsg (n : Nat) : String :=
  "Unconverged after " ++ toString n ++ " runs."

/-- `BaseAbinitMaker.get_response_args` of `atomate2/abinit/jobs/base.py`. -/
def getResponseArgs (task_document : AbinitTaskDocument) (history : JobHistory)
    (max_restarts : Nat) (prev_outputs : Option (List String)) : ResponseArgs :=
  if task_document.state = Status.success then
    { detour := none, addition := none, replace := none,
      stop_children := false, stop_jobflow := false, stored_data := none }
  else if history.runNumber > max_restarts then
    let unconverged_error : UnconvergedErrorV :=
      { job := some "maker", msg := some (unconvergedAfterMsg history.runNumber),
        num_errors := none, num_warnings := none, errors := none,
        warnings := none, abinit_input := some task_document.abinit_input,
        restart_info := none, history := some history }
    { detour := none, addition := none, replace := none,
      stop_children := true, stop_jobflow := true,
      stored_data := some unconverged_error }
  else
    { detour := none, addition := none,
      replace := some { struct := some task_document.struct,
                        restart_from := some task_document.dir_name,
                        prev_outputs := prev_outputs,
                        history := some history },
      stop_children := false, stop_jobflow := false, stored_data := none }

/-- C1: `BaseAbinitMaker.get_response_args` returns exactly one of three
outcomes: on SUCCESS no detour/addition/replacement/stored data and both stop
flags False; otherwise past `max_restarts` no replacement, both stop flags
True and an `UnconvergedError` in the stored data; otherwise a replacement
restarted from the task document's directory with the same history and
previous outputs and both stop flags False. -/
theorem C1_get_response_args (d : AbinitTaskDocument) (h : JobHistory)
    (maxr : Nat) (p : Option (List String)) :
    (d.state = Status.success →
      getResponseArgs d h maxr p =
        { detour := none, addition := none, replace := none,
          stop_children := false, stop_jobflow := false, stored_data := none }) ∧
    (d.state ≠ Status.success → h.runNumber > maxr →
      getResponseArgs d h maxr p =
        { detour := none, addition := none, replace := none,
          stop_children := true, stop_jobflow := true,
          stored_data := some
            { job := some "maker", msg := some (unconvergedAfterMsg h.runNumber),
              num_errors := none, num_warnings := none, errors := none,
              warnings := none, abinit_input := some d.abinit_input,
              restart_info := none, history := some h } }) ∧
    (d.state ≠ Status.success → ¬ h.runNumber > maxr →
      getResponseArgs d h maxr p =
        { detour := none, addition := none,
          replace := some { struct := some d.struct,
                            restart_from := some d.dir_name,
                            prev_outputs := p,
                            history := some h },
          stop_children := false, stop_jobflow := false, stored_data := none }) := by
  refine ⟨?_, ?_, ?_⟩
  · intro hs
    simp [getResponseArgs, hs]
  · intro hs hr
    simp [getResponseArgs, hs, hr]
  · intro hs hr
    simp [getResponseArgs, hs, hr]

/-- Witness for `C1_get_response_args`: a successful task document. -/
theorem C1_get_response_args_witness :
    getResponseArgs ⟨Status.success, "dir", ⟨"Si"⟩, ⟨["GROUND_STATE"], ⟨"Si"⟩⟩⟩
        ⟨1, 0⟩ 5 none =
      { detour := none, addition := none, replace := none,
        stop_children := false, stop_jobflow := false, stored_data := none } :=
  (C1_get_response_args ⟨Status.success, "dir", ⟨"Si"⟩, ⟨["GROUND_STATE"], ⟨"Si"⟩⟩⟩
    ⟨1, 0⟩ 5 none).1 rfl

/-! ## `MrgddbMaker` (jobs/mrgddb.py) and the restart chain bound -/

/-- The mrgddb task document parsed after a mrgddb run: `MrgddbTaskDoc` of
`atomate2/abinit/schemas/mrgddb.py` (built by `from_directory`), restricted
to the fields `MrgddbMaker.get_response` reads. `structure` defaults to None
in the pydantic model, hence the option; `state` is `TaskState.SUCCESS` when
the run completed or the merged `out_DDB` exists
(`Calculation.from_abinit_files`) and is collapsed here to success versus
anything else (FAILED or an unset state), which is all the comparison against
`Status.SUCCESS` in `get_response` observes. -/
structure MrgddbTaskDocument where
  state : Status
  dir_name : String
  struct : Option PmgStructure
  deriving DecidableEq, Repr

/-- The replacement job built by `self.make(...)` inside
`MrgddbMaker.get_response` (including the spurious `structure=` argument the
call passes even though `MrgddbMaker.make` takes none). -/
structure MrgddbRestartJob where
  struct : Option PmgStructure
  restart_from : Option String
  prev_outputs : List String
  history : Option JobHistory
  deriving DecidableEq, Repr

/-- The jobflow `Response` built by `MrgddbMaker.get_response`; the fields not
passed keep jobflow's defaults (no stops, no stored data). -/
structure MrgddbResponse where
  output_state : Status
  replace : Option MrgddbRestartJob
  stop_children : Bool
  stop_jobflow : Bool
  stored_data : Option UnconvergedErrorV
  deriving DecidableEq, Repr

/-- `MrgddbMaker.get_response` of `atomate2/abinit/jobs/mrgddb.py`. The
`max_restarts` check of the base maker is commented out in this method: on
any non-success state it builds a replacement job unconditionally. -/
def mrgddbGetResponse (task_document : MrgddbTaskDocument) (history : JobHistory)
    (max_restarts : Nat) (prev_outputs : List String) : MrgddbResponse :=
  if task_document.state = Status.success then
    { output_state := task_document.state, replace := none,
      stop_children := false, stop_jobflow := false, stored_data := none }
  else
    { output_state := task_document.state,
      replace := some { struct := task_document.struct,
                        restart_from := some task_document.dir_name,
                        prev_outputs := prev_outputs,
                        history := some history },
      stop_children := false, stop_jobflow := false, stored_data := none }

/-- History evolution across one automatic restart of a `BaseAbinitMaker`
chain: the replacement job is made with the same history, and when it runs
`setup_job` logs the restart and then the new start. -/
def nextRunHistory (h : JobHistory) : JobHistory := (h.logRestart).logStart

/-- History at the k-th run of a restart chain starting from history `h0`. -/
def chainHistory (h0 : JobHistory) : Nat → JobHistory
  | 0 => h0
  | k + 1 => nextRunHistory (chainHistory h0 k)

theorem chainHistory_runNumber (h0 : JobHistory) (k : Nat) :
    (chainHistory h0 k).runNumber = h0.runNumber + k := by
  induction k with
  | zero => simp [chainHistory]
  | succ n ih =>
    simp [chainHistory, nextRunHistory, JobHistory.logRestart, JobHistory.logStart, ih]
    omega

/-- C2 counterexample: the claimed `max_restarts` bound does not hold for
`MrgddbMaker`. With the default bound 5, a mrgddb task that is not successful
at run number 100 is still replaced by a new restart job, and nothing is
stopped. -/
theorem C2_counterexample :
    (100 > 5) ∧
    ((mrgddbGetResponse ⟨Status.failed, "prevdir", none⟩ ⟨100, 99⟩ 5 ["d1"]).replace
        ≠ none) ∧
    ((mrgddbGetResponse ⟨Status.failed, "prevdir", none⟩ ⟨100, 99⟩ 5 ["d1"]).stop_jobflow
        = false) := by
  refine ⟨by decide, ?_, ?_⟩
  · simp [mrgddbGetResponse]
  · simp [mrgddbGetResponse]

/-- C2 amended: along a `BaseAbinitMaker` restart chain a never-successful
calculation is restarted only while the history's run number is at most
`max_restarts`, and the history of the k-th chain run has run number
`h0.runNumber + k`, so the chain halts after a bounded number of runs; the
replacement's history is the one `setup_job` then advances by exactly one
run. `MrgddbMaker.get_response`, whose bound check is commented out, issues a
replacement on every non-success regardless of the run number. -/
theorem C2_amended_restart_bound (maxr : Nat) :
    (∀ (d : AbinitTaskDocument) (h : JobHistory) (p : Option (List String)),
      d.state ≠ Status.success →
      ((getResponseArgs d h maxr p).replace ≠ none → h.runNumber ≤ maxr)) ∧
    (∀ (d : AbinitTaskDocument) (h0 : JobHistory) (p : Option (List String)) (k : Nat),
      d.state ≠ Status.success → maxr < h0.runNumber + k →
      (getResponseArgs d (chainHistory h0 k) maxr p).replace = none ∧
      (getResponseArgs d (chainHistory h0 k) maxr p).stop_jobflow = true) ∧
    (∀ (d : AbinitTaskDocument) (h : JobHistory) (p : Option (List String)) (j),
      (getResponseArgs d h maxr p).replace = some j →
      ∀ (w : Option Nat) (t0 : Nat) (wd : String) (cfg : AbinitSettings) (v),
        setup_job j.struct j.prev_outputs j.restart_from j.history w t0 wd cfg =
          Except.ok v →
        v.history = nextRunHistory h) ∧
    (∀ (md : MrgddbTaskDocument) (h : JobHistory) (p : List String),
      md.state ≠ Status.success →
      (mrgddbGetResponse md h maxr p).replace ≠ none) := by
  refine ⟨?_, ?_, ?_, ?_⟩
  · intro d h p hs hr
    by_cases hb : h.runNumber > maxr
    · exfalso
      apply hr
      simp [getResponseArgs, hs, hb]
    · omega
  · intro d h0 p k hs hk
    have hrn : (chainHistory h0 k).runNumber = h0.runNumber + k :=
      chainHistory_runNumber h0 k
    have hb : (chainHistory h0 k).runNumber > maxr := by omega
    constructor
    · simp [getResponseArgs, hs, hb]
    · simp [getResponseArgs, hs, hb]
  · intro d h p j hj w t0 wd cfg v hv
    by_cases hs : d.state = Status.success
    · simp [getResponseArgs, hs] at hj
    · by_cases hb : h.runNumber > maxr
      · simp [getResponseArgs, hs, hb] at hj
      · simp [getResponseArgs, hs, hb] at hj
        have hrf : j.restart_from = some d.dir_name := by rw [← hj]
        have hh : j.history = some h := by rw [← hj]
        rw [hrf, hh] at hv
        simp only [setup_job] at hv
        have hcond : ¬ (j.struct = none ∧ j.prev_outputs = none ∧
            (some d.dir_name : Option String) = none) := by
          intro hcontra
          exact Option.some_ne_none _ hcontra.2.2
        rw [if_neg hcond] at hv
        simp only [Except.ok.injEq] at hv
        rw [← hv]
        simp [nextRunHistory]
  · intro md h p hs
    simp [mrgddbGetResponse, hs]

/-- Witness for `C2_amended_restart_bound` at `max_restarts = 5`: run 6 of a
chain that started at run number 1 halts the flow, and a failed mrgddb task
is still replaced. -/
theorem C2_amended_restart_bound_witness :
    ((getResponseArgs ⟨Status.failed, "d", ⟨"Si"⟩, ⟨[], ⟨"Si"⟩⟩⟩
        (chainHistory ⟨1, 0⟩ 5) 5 none).replace = none ∧
     (getResponseArgs ⟨Status.failed, "d", ⟨"Si"⟩, ⟨[], ⟨"Si"⟩⟩⟩
        (chainHistory ⟨1, 0⟩ 5) 5 none).stop_jobflow = true) ∧
    (mrgddbGetResponse ⟨Status.failed, "d", none⟩ ⟨7, 6⟩ 5 []).replace ≠ none := by
  constructor
  · exact (C2_amended_restart_bound 5).2.1 ⟨Status.failed, "d", ⟨"Si"⟩, ⟨[], ⟨"Si"⟩⟩⟩
      ⟨1, 0⟩ none 5 (by simp) (by decide)
  · exact (C2_amended_restart_bound 5).2.2.2 ⟨Status.failed, "d", none⟩ ⟨7, 6⟩ []
      (by simp)

/-- The observable effects of `MrgddbMaker.make`: the `prev_outputs` value it
hands to `setup_job`, to `write_mrgddb_input_set` and to `get_response`,
together with the response. -/
structure MrgddbMakeResult where
  setup_prev_outputs : Option (List String)
  write_prev_outputs : List String
  response_prev_outputs : List String
  response : MrgddbResponse
  deriving DecidableEq, Repr

/-- `MrgddbMaker.make` of `atomate2/abinit/jobs/mrgddb.py`:
`prev_outputs = [item for sublist in prev_outputs for item in sublist]`, then
the flattened list is passed to `setup_job`, `write_mrgddb_input_set` and
`get_response`. The task document parsed from the run directory is an
environment input. -/
def mrgddbMake (prev_outputs : List (List String)) (restart_from : Option String)
    (history : Option JobHistory) (wall_time : Option Nat) (t0 : Nat) (wd : String)
    (cfg : AbinitSettings) (task_document : MrgddbTaskDocument) :
    Except String MrgddbMakeResult :=
  let flat := prev_outputs.flatMap (fun sublist => sublist)
  match setup_job none (some flat) restart_from history wall_time t0 wd cfg with
  | Except.error e => Except.error e
  | Except.ok config =>
    let resp := mrgddbGetResponse task_document config.history cfg.maxRestarts flat
    Except.ok { setup_prev_outputs := some flat, write_prev_outputs := flat,
                response_prev_outputs := flat, response := resp }

theorem flatMap_id_eq_flatten (lss : List (List String)) :
    lss.flatMap (fun sublist => sublist) = lss.flatten := by
  induction lss with
  | nil => rfl
  | cons l ls ih => simp only [List.flatMap_cons, List.flatten_cons, ih]

theorem mrgddbMake_eq (lss : List (List String)) (r : Option String)
    (hist : Option JobHistory) (w : Option Nat) (t0 : Nat) (wd : String)
    (cfg : AbinitSettings) (td : MrgddbTaskDocument) :
    mrgddbMake lss r hist w t0 wd cfg td =
      Except.ok { setup_prev_outputs := some lss.flatten,
                  write_prev_outputs := lss.flatten,
                  response_prev_outputs := lss.flatten,
                  response := mrgddbGetResponse td
                    (JobHistory.logStart (match hist with
                      | none => JobHistory.fresh
                      | some h0 => if r ≠ none then h0.logRestart else h0))
                    cfg.maxRestarts lss.flatten } := by
  simp only [mrgddbMake, setup_job, flatMap_id_eq_flatten]
  rw [if_neg (fun hcontra => Option.some_ne_none _ hcontra.2.1)]

/-- C7: `MrgddbMaker.make` flattens `prev_outputs` exactly one level, into the
concatenation of the sublists in order, and that flattened list is the one
passed to job setup, input-set writing and the response logic (including any
restart job the response builds). -/
theorem C7_mrgddb_make_flattens (lss : List (List String)) (r : Option String)
    (hist : Option JobHistory) (w : Option Nat) (t0 : Nat) (wd : String)
    (cfg : AbinitSettings) (td : MrgddbTaskDocument) :
    ∃ res, mrgddbMake lss r hist w t0 wd cfg td = Except.ok res ∧
      res.setup_prev_outputs = some lss.flatten ∧
      res.write_prev_outputs = lss.flatten ∧
      res.response_prev_outputs = lss.flatten ∧
      (∀ j, res.response.replace = some j → j.prev_outputs = lss.flatten) := by
  refine ⟨_, mrgddbMake_eq lss r hist w t0 wd cfg td, rfl, rfl, rfl, ?_⟩
  intro j hj
  by_cases hs : td.state = Status.success
  · simp [mrgddbGetResponse, hs] at hj
  · simp only [mrgddbGetResponse, hs, if_neg, if_false, Option.some.injEq] at hj
    rw [← hj]

/-! ## Restart dependency resolution (jobs/core.py) -/

/-- The previous step's `outdata` abipy `Directory`, as queried by the restart
logic: `has_abiext` lookups, existence of `out_DEN`, and the last `TIM?_DEN`
file; all of these are environment inputs. -/
structure PrevOutdir where
  path : String
  wfkFile : Option String
  denFile : Option String
  outDenExists : Bool
  lastTimdenFile : Option String
  deriving DecidableEq, Repr

/-- `Directory.path_in` of abipy: a path inside the directory. -/
def pathIn (d : PrevOutdir) (fname : String) : String :=
  d.path ++ "/" ++ fname

/-- abipy `irdvars_for_ext`: the ird restart variables activated for a given
extension (for example `irdwfk=1` for WFK, `irdden=1` for DEN). -/
def irdvarsForExt (ext : String) : String :=
  "ird_for_" ++ ext

/-- A file transferred from the previous output directory into the input
directory, through `out_to_in` or `out_to_in_tim`. -/
inductive MovedFile where
  | outToIn (src : String)
  | outToInTim (src : String) (destName : String)
  deriving DecidableEq, Repr

/-- The state a maker's restart-resolution methods act on: the restart info
(reset flag and previous output directory) plus the effects they may apply to
the job (files moved into the input directory, ird variables set on the
abinit input, restart variables removed, warnings logged). -/
structure MakerRestartState where
  reset : Bool
  prevOutdir : PrevOutdir
  movedToIn : List MovedFile
  setVars : List String
  removedVars : List (List String)
  loggedWarnings : List String
  deriving DecidableEq, Repr

def scfRestartErrMsg : String := "Cannot find WFK or DEN file to restart from."

/-- `ScfMaker.resolve_restart_deps` of `atomate2/abinit/jobs/core.py`: on a
non-reset restart, the loop over `("WFK", "DEN")` breaks at the first
extension with a file in the previous output directory; the for-else raises
`RestartError` when neither is found. -/
def scfResolveRestartDeps (st : MakerRestartState) : Except String MakerRestartState :=
  if st.reset then
    Except.ok { st with removedVars := st.removedVars ++ [["WFK", "DEN"]] }
  else
    match st.prevOutdir.wfkFile with
    | some f =>
      Except.ok { st with movedToIn := st.movedToIn ++ [MovedFile.outToIn f],
                          setVars := st.setVars ++ [irdvarsForExt "WFK"] }
    | none =>
      match st.prevOutdir.denFile with
      | some f =>
        Except.ok { st with movedToIn := st.movedToIn ++ [MovedFile.outToIn f],
                            setVars := st.setVars ++ [irdvarsForExt "DEN"] }
      | none => Except.error scfRestartErrMsg

/-- C3: on a non-reset restart `ScfMaker.resolve_restart_deps` prefers the
WFK file of the previous output directory over the DEN file, moves the
selected file to the input directory, sets the ird variables of the selected
extension, and raises `RestartError` iff neither a WFK nor a DEN file is
found. -/
theorem C3_scf_resolve_restart_deps (st : MakerRestartState) (hr : st.reset = false) :
    (∀ f, st.prevOutdir.wfkFile = some f →
      scfResolveRestartDeps st =
        Except.ok { st with movedToIn := st.movedToIn ++ [MovedFile.outToIn f],
                            setVars := st.setVars ++ [irdvarsForExt "WFK"] }) ∧
    (st.prevOutdir.wfkFile = none → ∀ f, st.prevOutdir.denFile = some f →
      scfResolveRestartDeps st =
        Except.ok { st with movedToIn := st.movedToIn ++ [MovedFile.outToIn f],
                            setVars := st.setVars ++ [irdvarsForExt "DEN"] }) ∧
    ((∃ e, scfResolveRestartDeps st = Except.error e) ↔
      (st.prevOutdir.wfkFile = none ∧ st.prevOutdir.denFile = none)) := by
  refine ⟨?_, ?_, ?_⟩
  · intro f hf
    simp [scfResolveRestartDeps, hr, hf]
  · intro hw f hf
    simp [scfResolveRestartDeps, hr, hw, hf]
  · constructor
    · rintro ⟨e, he⟩
      by_cases hw : st.prevOutdir.wfkFile = none
      · by_cases hd : st.prevOutdir.denFile = none
        · exact ⟨hw, hd⟩
        · rcases Option.ne_none_iff_exists.mp hd with ⟨f, hf⟩
          rw [scfResolveRestartDeps, if_neg (by simp [hr]), hw, ← hf] at he
          cases he
      · rcases Option.ne_none_iff_exists.mp hw with ⟨f, hf⟩
        rw [scfResolveRestartDeps, if_neg (by simp [hr]), ← hf] at he
        cases he
    · rintro ⟨hw, hd⟩
      refine ⟨scfRestartErrMsg, ?_⟩
      simp [scfResolveRestartDeps, hr, hw, hd]

/-- Witness for `C3_scf_resolve_restart_deps`: a previous directory with both
WFK and DEN files present; the WFK file is selected. -/
theorem C3_scf_resolve_restart_deps_witness :
    scfResolveRestartDeps
        { reset := false,
          prevOutdir := { path := "p", wfkFile := some "p/out_WFK",
                          denFile := some "p/out_DEN", outDenExists := true,
                          lastTimdenFile := none },
          movedToIn := [], setVars := [], removedVars := [], loggedWarnings := [] } =
      Except.ok
        { reset := false,
          prevOutdir := { path := "p", wfkFile := some "p/out_WFK",
                          denFile := some "p/out_DEN", outDenExists := true,
                          lastTimdenFile := none },
          movedToIn := [MovedFile.outToIn "p/out_WFK"],
          setVars := [irdvarsForExt "WFK"], removedVars := [], loggedWarnings := [] } :=
  (C3_scf_resolve_restart_deps _ rfl).1 "p/out_WFK" rfl

def relaxWarnMsg : String := "Cannot find the WFK|DEN|TIM?_DEN file to restart from."

/-- Python `path.endswith(".nc")`, on the string character data (the builtin
`String.endsWith` does not evaluate inside the kernel). -/
def endsWithNc (s : String) : Bool :=
  ".nc".data.isSuffixOf s.data

/-- `RelaxMaker.resolve_restart_deps` of `atomate2/abinit/jobs/core.py`: on a
non-reset restart, the WFK lookup is performed but its use is guarded by
`if False and wfk_file`, so the WFK branch never runs; the method falls back
to `out_DEN` when it exists, then to the last `TIM?_DEN` file (renamed
`in_DEN.nc` or `in_DEN` according to its suffix), and when no restart file is
found it only logs a warning. The trailing `irdvars is None` RuntimeError
guard is unreachable because `irdvars` is set together with `restart_file`. -/
def relaxResolveRestartDeps (st : MakerRestartState) : Except String MakerRestartState :=
  if st.reset then
    Except.ok { st with removedVars := st.removedVars ++ [["WFK", "DEN"]] }
  else
    if st.prevOutdir.outDenExists then
      Except.ok { st with
        movedToIn := st.movedToIn ++
          [MovedFile.outToIn (pathIn st.prevOutdir "out_DEN")],
        setVars := st.setVars ++ [irdvarsForExt "DEN"] }
    else
      match st.prevOutdir.lastTimdenFile with
      | some tpath =>
        let in_file_name := if endsWithNc tpath then "in_DEN.nc" else "in_DEN"
        Except.ok { st with
          movedToIn := st.movedToIn ++ [MovedFile.outToInTim tpath in_file_name],
          setVars := st.setVars ++ [irdvarsForExt "DEN"] }
      | none =>
        Except.ok { st with loggedWarnings := st.loggedWarnings ++ [relaxWarnMsg] }

/-- C4 counterexample: a previous output directory holding both a WFK file and
`out_DEN`. Contrary to the claim, the restart does not use the WFK file: the
selected restart file is `out_DEN` with the DEN ird variables (the WFK branch
is disabled by `if False and wfk_file`). -/
theorem C4_counterexample :
    (relaxResolveRestartDeps
        { reset := false,
          prevOutdir := { path := "p", wfkFile := some "p/out_WFK",
                          denFile := some "p/out_DEN", outDenExists := true,
                          lastTimdenFile := none },
          movedToIn := [], setVars := [], removedVars := [], loggedWarnings := [] } =
      Except.ok
        { reset := false,
          prevOutdir := { path := "p", wfkFile := some "p/out_WFK",
                          denFile := some "p/out_DEN", outDenExists := true,
                          lastTimdenFile := none },
          movedToIn := [MovedFile.outToIn "p/out_DEN"],
          setVars := [irdvarsForExt "DEN"], removedVars := [],
          loggedWarnings := [] }) ∧
    (MovedFile.outToIn "p/out_DEN" ≠ MovedFile.outToIn "p/out_WFK") := by
  constructor
  · rfl
  · decide

/-- C4 amended: on a non-reset restart `RelaxMaker.resolve_restart_deps`
never restarts from the WFK file (that branch is disabled in the code); it
restarts from `out_DEN` when it exists, otherwise from the last `TIM?_DEN`
file renamed by its suffix, and when no DEN restart file is found it logs a
warning and raises no error; in particular it never returns an error. -/
theorem C4_amended_relax_resolve (st : MakerRestartState) (hr : st.reset = false) :
    (st.prevOutdir.outDenExists = true →
      relaxResolveRestartDeps st =
        Except.ok { st with
          movedToIn := st.movedToIn ++
            [MovedFile.outToIn (pathIn st.prevOutdir "out_DEN")],
          setVars := st.setVars ++ [irdvarsForExt "DEN"] }) ∧
    (st.prevOutdir.outDenExists = false → ∀ tpath,
      st.prevOutdir.lastTimdenFile = some tpath →
      relaxResolveRestartDeps st =
        Except.ok { st with
          movedToIn := st.movedToIn ++
            [MovedFile.outToInTim tpath
              (if endsWithNc tpath then "in_DEN.nc" else "in_DEN")],
          setVars := st.setVars ++ [irdvarsForExt "DEN"] }) ∧
    (st.prevOutdir.outDenExists = false →
      st.prevOutdir.lastTimdenFile = none →
      relaxResolveRestartDeps st =
        Except.ok { st with loggedWarnings := st.loggedWarnings ++ [relaxWarnMsg] }) ∧
    (∀ e, relaxResolveRestartDeps st ≠ Except.error e) := by
  refine ⟨?_, ?_, ?_, ?_⟩
  · intro hd
    simp [relaxResolveRestartDeps, hr, hd]
  · intro hd tpath ht
    simp [relaxResolveRestartDeps, hr, hd, ht]
  · intro hd ht
    simp [relaxResolveRestartDeps, hr, hd, ht]
  · intro e he
    rw [relaxResolveRestartDeps] at he
    by_cases hres : st.reset
    · rw [if_pos hres] at he; cases he
    · rw [if_neg hres] at he
      by_cases hd : st.prevOutdir.outDenExists
      · rw [if_pos hd] at he; cases he
      · rw [if_neg hd] at he
        cases ht : st.prevOutdir.lastTimdenFile with
        | some tpath => rw [ht] at he; cases he
        | none => rw [ht] at he; cases he

/-- Witness for `C4_amended_relax_resolve`: no `out_DEN`, a netcdf `TIM?_DEN`
file present. -/
theorem C4_amended_relax_resolve_witness :
    relaxResolveRestartDeps
        { reset := false,
          prevOutdir := { path := "p", wfkFile := none, denFile := none,
                          outDenExists := false,
                          lastTimdenFile := some "p/out_TIM9_DEN.nc" },
          movedToIn := [], setVars := [], removedVars := [], loggedWarnings := [] } =
      Except.ok
        { reset := false,
          prevOutdir := { path := "p", wfkFile := none, denFile := none,
                          outDenExists := false,
                          lastTimdenFile := some "p/out_TIM9_DEN.nc" },
          movedToIn := [MovedFile.outToInTim "p/out_TIM9_DEN.nc" "in_DEN.nc"],
          setVars := [irdvarsForExt "DEN"], removedVars := [],
          loggedWarnings := [] } := by
  have h := (C4_amended_relax_resolve
    { reset := false,
      prevOutdir := { path := "p", wfkFile := none, denFile := none,
                      outDenExists := false,
                      lastTimdenFile := some "p/out_TIM9_DEN.nc" },
      movedToIn := [], setVars := [], removedVars := [], loggedWarnings := [] }
    rfl).2.1 rfl "p/out_TIM9_DEN.nc" rfl
  have hnc : endsWithNc "p/out_TIM9_DEN.nc" = true := by decide
  simpa [hnc] using h

/-! ## Error serialization (utils/common.py) -/

/-- `AbinitRuntimeError` as an object (utils/common.py). The `job` passed to
the constructor carries no parser report in the embedded call sites, so the
diagnostic fields hold the constructor arguments; any of them may be Python
None (`none` here), and `errors`/`warnings` may also be an empty list. -/
structure AbinitRuntimeErrorV where
  job : Option String
  msg : Option String
  num_errors : Option Int
  num_warnings : Option Int
  errors : Option (List AbiEvent)
  warnings : Option (List AbiEvent)
  deriving DecidableEq, Repr

/-- The dictionary written by `AbinitRuntimeError.to_dict`:
`num_errors`/`num_warnings` are always written (value possibly None), while
the `errors`, `warnings` and `error_message` keys are written only when the
corresponding attribute is truthy (`none` at the outer option means the key
is absent). Event elements pass through monty `as_dict`/`process_decoded`,
which round-trip them. -/
structure AbinitErrorDict where
  num_errors : Option Int
  num_warnings : Option Int
  errors : Option (List AbiEvent)
  warnings : Option (List AbiEvent)
  error_message : Option String
  error_code : String
  deriving DecidableEq, Repr

/-- Python truthiness of an optional list: None and `[]` are falsy. -/
def truthyList : Option (List AbiEvent) → Bool
  | none => false
  | some [] => false
  | some (_ :: _) => true

/-- Python truthiness of an optional string: None and `""` are falsy. -/
def truthyStr : Option String → Bool
  | none => false
  | some s => !(s == "")

/-- The shared body of `AbinitRuntimeError.to_dict`, also run by
`UnconvergedError.to_dict` through `super().to_dict()`. -/
def errorFieldsToDict (msg : Option String) (ne nw : Option Int)
    (errs warns : Option (List AbiEvent)) (code : String) : AbinitErrorDict :=
  { num_errors := ne, num_warnings := nw,
    errors := if truthyList errs then errs else none,
    warnings := if truthyList warns then warns else none,
    error_message := if truthyStr msg then msg else none,
    error_code := code }

/-- `AbinitRuntimeError.to_dict`. -/
def abinitRuntimeErrorToDict (e : AbinitRuntimeErrorV) : AbinitErrorDict :=
  errorFieldsToDict e.msg e.num_errors e.num_warnings e.errors e.warnings "Error"

/-- `AbinitRuntimeError.from_dict`: `warnings`/`errors` decode to `[]` when
the key is absent, `msg` to None when `error_message` is absent. -/
def abinitRuntimeErrorFromDict (d : AbinitErrorDict) : AbinitRuntimeErrorV :=
  { job := none,
    msg := d.error_message,
    num_errors := d.num_errors,
    num_warnings := d.num_warnings,
    errors := some ((d.errors).getD []),
    warnings := some ((d.warnings).getD []) }

/-- The dictionary written by `UnconvergedError.to_dict`: the base dictionary
(with error code Unconverged) plus the `abinit_input`, `restart_info` and
`history` keys, always present with a possibly-None value. -/
structure UnconvergedErrorDict where
  base : AbinitErrorDict
  abinit_input : Option AbinitInputV
  restart_info : Option String
  history : Option JobHistory
  deriving DecidableEq, Repr

/-- `UnconvergedError.to_dict`. -/
def unconvergedErrorToDict (e : UnconvergedErrorV) : UnconvergedErrorDict :=
  { base := errorFieldsToDict e.msg e.num_errors e.num_warnings e.errors
      e.warnings "Unconverged",
    abinit_input := e.abinit_input,
    restart_info := e.restart_info,
    history := e.history }

def keyErrorMsg : String := "KeyError: error_message"

/-- `UnconvergedError.from_dict`: unlike the base class it reads
`d["error_message"]` without an `in d` guard, so a dictionary without that
key raises a KeyError. -/
def unconvergedErrorFromDict (d : UnconvergedErrorDict) :
    Except String UnconvergedErrorV :=
  match d.base.error_message with
  | none => Except.error keyErrorMsg
  | some m =>
    Except.ok { job := none, msg := some m,
                num_errors := d.base.num_errors,
                num_warnings := d.base.num_warnings,
                errors := some ((d.base.errors).getD []),
                warnings := some ((d.base.warnings).getD []),
                abinit_input := d.abinit_input,
                restart_info := d.restart_info,
                history := d.history }

/-- The `errors`/`warnings` value after a from_dict round trip: a non-empty
list is restored exactly; None and the empty list both come back as `[]`. -/
def normalizeEvtList (o : Option (List AbiEvent)) : Option (List AbiEvent) :=
  if truthyList o then o else some []

/-- The message after an `AbinitRuntimeError` round trip: a truthy message is
restored exactly; None and `""` come back as None. -/
def normalizeMsg (o : Option String) : Option String :=
  if truthyStr o then o else none

theorem roundtrip_evtList (o : Option (List AbiEvent)) :
    some ((if truthyList o then o else none).getD []) = normalizeEvtList o := by
  cases o with
  | none => simp [truthyList, normalizeEvtList]
  | some l =>
    cases l with
    | nil => simp [truthyList, normalizeEvtList]
    | cons a as => simp [truthyList, normalizeEvtList]

/-- C5 counterexample: the round trip is not the identity on the claimed
fields. An `UnconvergedError` with a None message serializes to a dictionary
without the `error_message` key, on which `UnconvergedError.from_dict` raises
a KeyError; and an `AbinitRuntimeError` whose `errors` attribute is None
comes back with `errors = []`. -/
theorem C5_counterexample :
    (unconvergedErrorFromDict (unconvergedErrorToDict
        { job := none, msg := none, num_errors := some 2, num_warnings := some 3,
          errors := some [⟨"ScfConvergenceWarning"⟩],
          warnings := some [⟨"ScfConvergenceWarning"⟩],
          abinit_input := none, restart_info := none, history := none }) =
      Except.error keyErrorMsg) ∧
    ((abinitRuntimeErrorFromDict (abinitRuntimeErrorToDict
        { job := none, msg := some "boom", num_errors := some 1,
          num_warnings := some 0, errors := none,
          warnings := some [⟨"w"⟩] })).errors = some [] ∧
      (some [] : Option (List AbiEvent)) ≠ none) := by
  refine ⟨rfl, rfl, ?_⟩
  intro hcontra
  cases hcontra

/-- C5 amended: `from_dict(to_dict(e))` restores `num_errors` and
`num_warnings` exactly for both error classes; `errors` and `warnings` are
restored exactly when non-empty, while None or empty ones come back as `[]`.
For `AbinitRuntimeError` a truthy message is restored exactly and a falsy
(None or empty) one comes back as None; for `UnconvergedError` the round trip
succeeds iff the message is truthy (restoring it, together with
`abinit_input`, `restart_info` and `history`), and raises a KeyError on a
falsy message. -/
theorem C5_amended_roundtrip (e : AbinitRuntimeErrorV) (u : UnconvergedErrorV) :
    (abinitRuntimeErrorFromDict (abinitRuntimeErrorToDict e) =
      { job := none, msg := normalizeMsg e.msg, num_errors := e.num_errors,
        num_warnings := e.num_warnings, errors := normalizeEvtList e.errors,
        warnings := normalizeEvtList e.warnings }) ∧
    (truthyStr u.msg = true →
      unconvergedErrorFromDict (unconvergedErrorToDict u) =
        Except.ok { u with job := none,
                           errors := normalizeEvtList u.errors,
                           warnings := normalizeEvtList u.warnings }) ∧
    (truthyStr u.msg = false →
      unconvergedErrorFromDict (unconvergedErrorToDict u) =
        Except.error keyErrorMsg) := by
  refine ⟨?_, ?_, ?_⟩
  · simp only [abinitRuntimeErrorFromDict, abinitRuntimeErrorToDict,
      errorFieldsToDict, roundtrip_evtList, normalizeMsg]
  · intro hm
    cases hmsg : u.msg with
    | none => rw [hmsg] at hm; simp [truthyStr] at hm
    | some m =>
      simp only [unconvergedErrorFromDict, unconvergedErrorToDict,
        errorFieldsToDict, hmsg, hm, if_true]
      rw [hmsg] at hm
      simp only [hm, if_true]
      simp only [Except.ok.injEq]
      have h1 := roundtrip_evtList u.errors
      have h2 := roundtrip_evtList u.warnings
      cases u
      simp only at hmsg
      subst hmsg
      simp_all [UnconvergedErrorV.mk.injEq]
  · intro hm
    simp only [unconvergedErrorFromDict, unconvergedErrorToDict,
      errorFieldsToDict, hm]
    simp

/-- Witness for `C5_amended_roundtrip`: a concrete `UnconvergedError` with a
truthy message, one warning and None errors. -/
theorem C5_amended_roundtrip_witness :
    unconvergedErrorFromDict (unconvergedErrorToDict
        { job := some "maker", msg := some "Unconverged after 6 runs.",
          num_errors := none, num_warnings := none, errors := none,
          warnings := some [⟨"ScfConvergenceWarning"⟩],
          abinit_input := none, restart_info := none,
          history := some ⟨6, 5⟩ }) =
      Except.ok
        { job := none, msg := some "Unconverged after 6 runs.",
          num_errors := none, num_warnings := none, errors := some [],
          warnings := some [⟨"ScfConvergenceWarning"⟩],
          abinit_input := none, restart_info := none,
          history := some ⟨6, 5⟩ } := by
  have h := (C5_amended_roundtrip
    { job := none, msg := none, num_errors := none, num_warnings := none,
      errors := none, warnings := none }
    { job := some "maker", msg := some "Unconverged after 6 runs.",
      num_errors := none, num_warnings := none, errors := none,
      warnings := some [⟨"ScfConvergenceWarning"⟩],
      abinit_input := none, restart_info := none,
      history := some ⟨6, 5⟩ }).2.1 (by decide)
  simpa [normalizeEvtList, truthyList] using h

/-! ## `SigmaSetGenerator.get_abinit_input` (sets/gw.py) -/

/-- abipy input tag `NSCF`. -/
def NSCF : String := "nscf"

/-- abipy input tag `SCREENING`. -/
def SCREENING : String := "screening"

/-- A previous output directory as the GW generators read it: the
`AbinitInput` stored in its `abinit_input.json` (`load_abinit_input`) and the
final structure obtained by `get_final_structure`; both environment inputs,
modelled as total. -/
structure PrevOutputDir where
  abinitInput : AbinitInputV
  finalStructure : PmgStructure
  deriving DecidableEq, Repr

/-- abipy `AbinitInput.set_structure`. -/
def AbinitInputV.setStructure (a : AbinitInputV) (s : PmgStructure) : AbinitInputV :=
  { a with struct := s }

/-- The sigma input built by abipy `sigma_from_inputs` from the identified
NSCF and SCREENING inputs (the numeric generator parameters are opaque
pass-through data and are omitted). -/
structure SigmaInput where
  nscf_input : AbinitInputV
  scr_input : AbinitInputV
  deriving DecidableEq, Repr

def sigmaNoPrevMsg : String := "No previous_outputs. Cannot perform Sigma calculation."

def sigmaLenMsg : String :=
  "Should have exactly two previous outputs (one NSCF calculation and one SCREENING calculation)."

def sigmaTagsMsg : String := "Could not find one NSCF and one SCREENING calculation."

def sigmaStructMsg : String :=
  "Structure is provided in non-SCF input set generator but is not the same as the one from the previous (SCF) input set."

/-- The if/elif/else identification inside
`SigmaSetGenerator.get_abinit_input`: which of the two loaded inputs is the
NSCF input and which the SCREENING input. -/
def identifyNscfScr (ab1 ab2 : AbinitInputV) :
    Except String (AbinitInputV × AbinitInputV) :=
  if NSCF ∈ ab1.runlevel ∧ SCREENING ∈ ab2.runlevel then
    Except.ok (ab1, ab2)
  else if SCREENING ∈ ab1.runlevel ∧ NSCF ∈ ab2.runlevel then
    Except.ok (ab2, ab1)
  else
    Except.error sigmaTagsMsg

/-- `SigmaSetGenerator.get_abinit_input` of `atomate2/abinit/sets/gw.py`. -/
def sigmaGetAbinitInput (struct : Option PmgStructure)
    (prev_outputs : Option (List PrevOutputDir)) : Except String SigmaInput :=
  match prev_outputs with
  | none => Except.error sigmaNoPrevMsg
  | some prevs =>
    match prevs with
    | [p1, p2] =>
      match identifyNscfScr p1.abinitInput p2.abinitInput with
      | Except.error e => Except.error e
      | Except.ok (nscf_inp, scr_inp) =>
        let previous_structure := p1.finalStructure
        let nscf_inp := nscf_inp.setStructure previous_structure
        let scr_inp := scr_inp.setStructure previous_structure
        match struct with
        | some s =>
          if s ≠ previous_structure then Except.error sigmaStructMsg
          else Except.ok { nscf_input := nscf_inp, scr_input := scr_inp }
        | none => Except.ok { nscf_input := nscf_inp, scr_input := scr_inp }
    | _ => Except.error sigmaLenMsg

/-- C6 counterexample: the raise condition of the claim is not exhaustive.
With two valid previous outputs (one NSCF, one SCREENING) but a provided
structure differing from the final structure of the first previous output,
`get_abinit_input` raises a RuntimeError even though `prev_outputs` is not
None, has exactly two entries and holds exactly one NSCF and one SCREENING
input. -/
theorem C6_counterexample :
    (sigmaGetAbinitInput (some ⟨"shifted"⟩)
        (some [⟨⟨[NSCF], ⟨"Si"⟩⟩, ⟨"Si"⟩⟩, ⟨⟨[SCREENING], ⟨"Si"⟩⟩, ⟨"Si"⟩⟩]) =
      Except.error sigmaStructMsg) ∧
    ((some [(⟨⟨[NSCF], ⟨"Si"⟩⟩, ⟨"Si"⟩⟩ : PrevOutputDir), ⟨⟨[SCREENING], ⟨"Si"⟩⟩, ⟨"Si"⟩⟩]) ≠
      (none : Option (List PrevOutputDir))) ∧
    ([(⟨⟨[NSCF], ⟨"Si"⟩⟩, ⟨"Si"⟩⟩ : PrevOutputDir), ⟨⟨[SCREENING], ⟨"Si"⟩⟩, ⟨"Si"⟩⟩].length = 2) ∧
    (identifyNscfScr ⟨[NSCF], ⟨"Si"⟩⟩ ⟨[SCREENING], ⟨"Si"⟩⟩ =
      Except.ok (⟨[NSCF], ⟨"Si"⟩⟩, ⟨[SCREENING], ⟨"Si"⟩⟩)) := by
  refine ⟨?_, ?_, rfl, ?_⟩
  · rfl
  · intro hcontra; cases hcontra
  · rfl

/-- C6 amended: `SigmaSetGenerator.get_abinit_input` raises a RuntimeError
iff `prev_outputs` is None, does not have exactly two entries, the two inputs
are not identified as one NSCF plus one SCREENING, or a structure is provided
that differs from the final structure of the first previous output; when each
input carries exactly one of the two tags the identification is independent
of the order of the two entries. -/
theorem C6_amended_sigma_input (struct : Option PmgStructure)
    (prevs : Option (List PrevOutputDir)) :
    (prevs = none → sigmaGetAbinitInput struct prevs = Except.error sigmaNoPrevMsg) ∧
    (∀ l, prevs = some l → l.length ≠ 2 →
      sigmaGetAbinitInput struct prevs = Except.error sigmaLenMsg) ∧
    (∀ p1 p2, prevs = some [p1, p2] →
      ((∃ e, sigmaGetAbinitInput struct prevs = Except.error e) ↔
        ((∃ e, identifyNscfScr p1.abinitInput p2.abinitInput = Except.error e) ∨
         (∃ s, struct = some s ∧ s ≠ p1.finalStructure)))) ∧
    (∀ a b : AbinitInputV,
      NSCF ∈ a.runlevel → SCREENING ∈ b.runlevel →
      SCREENING ∉ a.runlevel → NSCF ∉ b.runlevel →
      identifyNscfScr a b = Except.ok (a, b) ∧
      identifyNscfScr b a = Except.ok (a, b)) := by
  refine ⟨?_, ?_, ?_, ?_⟩
  · intro h; subst h; rfl
  · intro l hl hlen
    subst hl
    match l, hlen with
    | [], _ => rfl
    | [a], _ => rfl
    | [a, b], h => exact absurd rfl h
    | a :: b :: c :: rest, _ => rfl
  · intro p1 p2 hl
    subst hl
    constructor
    · rintro ⟨e, he⟩
      simp only [sigmaGetAbinitInput] at he
      cases hid : identifyNscfScr p1.abinitInput p2.abinitInput with
      | error e2 => exact Or.inl ⟨e2, rfl⟩
      | ok pr =>
        rw [hid] at he
        cases pr with
        | mk nscf_inp scr_inp =>
          cases hstruct : struct with
          | none =>
            rw [hstruct] at he
            dsimp only at he
            cases he
          | some s =>
            rw [hstruct] at he
            dsimp only at he
            by_cases hs : s = p1.finalStructure
            · rw [if_neg (by simp [hs])] at he
              cases he
            · exact Or.inr ⟨s, rfl, hs⟩
    · rintro (⟨e, he⟩ | ⟨s, hs, hne⟩)
      · refine ⟨e, ?_⟩
        simp only [sigmaGetAbinitInput, he]
      · subst hs
        cases hid : identifyNscfScr p1.abinitInput p2.abinitInput with
        | error e2 =>
          refine ⟨e2, ?_⟩
          simp only [sigmaGetAbinitInput, hid]
        | ok pr =>
          cases pr with
          | mk nscf_inp scr_inp =>
            refine ⟨sigmaStructMsg, ?_⟩
            simp only [sigmaGetAbinitInput, hid]
            rw [if_pos hne]
  · intro a b hna hsb hsa hnb
    constructor
    · simp [identifyNscfScr, hna, hsb]
    · simp [identifyNscfScr, hna, hsb, hsa, hnb]

/-- Witness for `C6_amended_sigma_input`: with the entries given in swapped
order (SCREENING first), the identification still returns the NSCF input
first. -/
theorem C6_amended_sigma_input_witness :
    identifyNscfScr ⟨[SCREENING], ⟨"Si"⟩⟩ ⟨[NSCF], ⟨"Si"⟩⟩ =
      Except.ok (⟨[NSCF], ⟨"Si"⟩⟩, ⟨[SCREENING], ⟨"Si"⟩⟩) :=
  ((C6_amended_sigma_input none none).2.2.2 ⟨[NSCF], ⟨"Si"⟩⟩ ⟨[SCREENING], ⟨"Si"⟩⟩
    (by decide) (by decide) (by decide) (by decide)).2

/-! ## Flow composition (flows/gw.py, flows/dfpt.py) -/

/-- A job as created during flow composition: the makers' `make` methods are
`@job`-decorated, so calling them only records their arguments, and `output`
attributes referenced by later jobs are symbolic references resolved at
execution time. Each composed job records the structure value it was handed
(if any), the output references it depends on, and the setting updates the
powerups applied to it. -/
structure ComposedJob where
  name : String
  struct : Option PmgStructure
  prev_outputs_refs : List String
  restart_from : Option String
  settings : List String
  deriving DecidableEq, Repr

/-- A jobflow `Flow` assembled by a flow maker. -/
structure ComposedFlow where
  jobs : List ComposedJob
  name : String
  deriving DecidableEq, Repr

/-- Modelled from the spec: the powerups `update_factory_kwargs`,
`update_user_kpoints_settings` and `update_user_abinit_settings`
(atomate2/abinit/powerups.py is not under `src/`) return a job with updated
input-set settings; per the spec the domain objects are only composed here,
so a powerup touches the job's settings and nothing else. -/
def applyPowerup (j : ComposedJob) (upd : String) : ComposedJob :=
  { j with settings := j.settings ++ [upd] }

/-- `G0W0Maker.make` of `atomate2/abinit/flows/gw.py`: an scf job from the
given structure, an nscf job from the scf output, a screening job from the
nscf output and a sigma job from the nscf and screening outputs. The second
component is the structure variable when composition finishes. -/
def g0w0Make (s : PmgStructure) (restart_from : Option String) :
    ComposedFlow × PmgStructure :=
  let scf_job : ComposedJob :=
    { name := "scf", struct := some s, prev_outputs_refs := [],
      restart_from := restart_from, settings := [] }
  let nscf_job : ComposedJob :=
    { name := "nscf", struct := none,
      prev_outputs_refs := ["scf_job.output.dir_name"],
      restart_from := none, settings := [] }
  let scr_job : ComposedJob :=
    { name := "scr", struct := none,
      prev_outputs_refs := ["nscf_job.output.dir_name"],
      restart_from := none, settings := [] }
  let sigma_job : ComposedJob :=
    { name := "sigma", struct := none,
      prev_outputs_refs := ["nscf_job.output.dir_name", "scr_job.output.dir_name"],
      restart_from := none, settings := [] }
  ({ jobs := [scf_job, nscf_job, scr_job, sigma_job], name := "G0W0 calculation" }, s)

/-- The four optional sub-makers of `DfptFlowMaker` (present or None). -/
structure DfptMakerFlags where
  ddk : Bool
  dde : Bool
  dte : Bool
  mrgddb : Bool
  deriving DecidableEq, Repr

def ddkPertsJob : ComposedJob :=
  { name := "generate_ddk_perts", struct := none,
    prev_outputs_refs := ["static_job.output.abinit_input"],
    restart_from := none, settings := [] }

def ddkCalcsJob (s : Option PmgStructure) : ComposedJob :=
  { name := "run_ddk_rf", struct := s,
    prev_outputs_refs := ["static_job.output.dir_name"],
    restart_from := none, settings := [] }

def ddePertsJob : ComposedJob :=
  { name := "generate_dde_perts", struct := none,
    prev_outputs_refs := ["static_job.output.abinit_input"],
    restart_from := none, settings := [] }

def ddeCalcsJob (s : Option PmgStructure) : ComposedJob :=
  { name := "run_dde_rf", struct := s,
    prev_outputs_refs := ["static_job.output.dir_name", "ddk_calcs.output.dirs"],
    restart_from := none, settings := [] }

def dtePertsJob : ComposedJob :=
  { name := "generate_dte_perts", struct := none,
    prev_outputs_refs := ["static_job.output.abinit_input"],
    restart_from := none, settings := [] }

def dteCalcsJob (s : Option PmgStructure) : ComposedJob :=
  { name := "run_dte_rf", struct := s,
    prev_outputs_refs := ["static_job.output.dir_name", "dde_calcs.output.dirs"],
    restart_from := none, settings := [] }

def mrgddbComposedJob : ComposedJob :=
  { name := "mrgddb", struct := none,
    prev_outputs_refs := ["dde_calcs.output.dirs", "dte_calcs.output.dirs"],
    restart_from := none, settings := [] }

/-- `DfptFlowMaker.make` of `atomate2/abinit/flows/dfpt.py`: a powered-up
static job, then conditionally the DDK, DDE, DTE perturbation/response jobs
and the mrgddb merge. A branch that references `ddk_calcs`/`dde_calcs`/
`dte_calcs` without the corresponding maker being set hits an unbound local
(Python NameError), modelled as an error. The second component is the
structure variable when composition finishes. -/
def dfptMake (flags : DfptMakerFlags) (s : Option PmgStructure)
    (restart_from : Option String) :
    Except String (ComposedFlow × Option PmgStructure) :=
  let static_job : ComposedJob :=
    applyPowerup (applyPowerup (applyPowerup
      { name := "static", struct := s, prev_outputs_refs := [],
        restart_from := restart_from, settings := [] }
      "factory_kwargs: smearing, spin_mode") "user_kpoints_settings: grid_density")
      "user_abinit_settings: nstep, toldfe, autoparal, npfft, chksymbreak"
  let jobs := [static_job]
  let jobs := if flags.ddk then jobs ++ [ddkPertsJob, ddkCalcsJob s] else jobs
  if flags.dde ∧ ¬ flags.ddk then Except.error "NameError: ddk_calcs" else
  let jobs := if flags.dde then jobs ++ [ddePertsJob, ddeCalcsJob s] else jobs
  if flags.dte ∧ ¬ flags.dde then Except.error "NameError: dde_calcs" else
  let jobs := if flags.dte then jobs ++ [dtePertsJob, dteCalcsJob s] else jobs
  if flags.mrgddb ∧ ¬ (flags.dde ∧ flags.dte) then
    Except.error "NameError: dde_calcs or dte_calcs"
  else
    let jobs := if flags.mrgddb then jobs ++ [mrgddbComposedJob] else jobs
    Except.ok ({ jobs := jobs, name := "DFPT" }, s)

/-- C8: flow composition does not mutate the caller's structure. For every
structure, `G0W0Maker.make` hands exactly the given structure to the scf job
and to no other job and leaves the structure variable unchanged; whenever
`DfptFlowMaker.make` composes a flow, the structure variable is unchanged and
every sub-job either receives no structure or exactly the given one. -/
theorem C8_flow_composition_pure (s : PmgStructure) (sopt : Option PmgStructure)
    (r r2 : Option String) (flags : DfptMakerFlags) :
    ((g0w0Make s r).2 = s) ∧
    ((g0w0Make s r).1.jobs.map (fun j => j.struct) = [some s, none, none, none]) ∧
    (∀ flow s2, dfptMake flags sopt r2 = Except.ok (flow, s2) →
      s2 = sopt ∧ ∀ j ∈ flow.jobs, j.struct = none ∨ j.struct = sopt) := by
  refine ⟨rfl, rfl, ?_⟩
  intro flow s2 hmk
  rcases flags with ⟨ddk, dde, dte, mrg⟩
  cases ddk <;> cases dde <;> cases dte <;> cases mrg <;>
    simp_all [dfptMake, applyPowerup, ddkPertsJob, ddkCalcsJob, ddePertsJob,
      ddeCalcsJob, dtePertsJob, dteCalcsJob, mrgddbComposedJob] <;>
    (try rw [← hmk.1]) <;>
    aesop

/-- Witness for `C8_flow_composition_pure`: the `shg` configuration (all four
sub-makers present) on a concrete structure. -/
theorem C8_flow_composition_pure_witness :
    ((some (⟨"Si"⟩ : PmgStructure) : Option PmgStructure) = some ⟨"Si"⟩) ∧
    ((ddkCalcsJob (some ⟨"Si"⟩)).struct = none ∨
      (ddkCalcsJob (some ⟨"Si"⟩)).struct = some ⟨"Si"⟩) :=
  have h := (C8_flow_composition_pure ⟨"Si"⟩ (some ⟨"Si"⟩) none none
    ⟨true, true, true, true⟩).2.2
    { jobs := [{ name := "static", struct := some ⟨"Si"⟩, prev_outputs_refs := [],
                 restart_from := none,
                 settings := ["factory_kwargs: smearing, spin_mode",
                              "user_kpoints_settings: grid_density",
                              "user_abinit_settings: nstep, toldfe, autoparal, npfft, chksymbreak"] },
               ddkPertsJob, ddkCalcsJob (some ⟨"Si"⟩),
               ddePertsJob, ddeCalcsJob (some ⟨"Si"⟩),
               dtePertsJob, dteCalcsJob (some ⟨"Si"⟩),
               mrgddbComposedJob],
      name := "DFPT" } (some ⟨"Si"⟩) rfl
  ⟨h.1, h.2 (ddkCalcsJob (some ⟨"Si"⟩)) (by simp)⟩
